import Mathlib

/-!
Shallow embedding of the ArtiCast document linearization engine
(`src/ArtiCast.py`): the node classifier predicates, the section
linearizer `process_paper_section`, and the document assembler loop from
`main` (lines 152-159).  Python exceptions (`assert`, `raise ValueError`)
are modelled with an `Except` error type; `str.strip()` is modelled by
`pyStrip` (remove leading and trailing whitespace characters).
-/

/-- An XML element as exposed by `xml.etree.ElementTree`: a tag, an
attribute list, optional head text (`.text`), child elements, and
optional tail text (`.tail`). -/
inductive Element where
  | mk (tag : String) (attrib : List (String × String)) (text : Option String)
      (children : List Element) (tail : Option String)

def Element.tag : Element → String
  | .mk t _ _ _ _ => t

def Element.attrib : Element → List (String × String)
  | .mk _ a _ _ _ => a

def Element.text : Element → Option String
  | .mk _ _ x _ _ => x

def Element.children : Element → List Element
  | .mk _ _ _ cs _ => cs

def Element.tail : Element → Option String
  | .mk _ _ _ _ tl => tl

/-- Model of `element.get(key)`: look up an attribute value. -/
def Element.get (e : Element) (key : String) : Option String :=
  List.lookup key e.attrib

mutual

/-- Model of `element.iter()`: the element followed by all of its
descendants, in document (preorder, depth-first) order. -/
def Element.iter : Element → List Element
  | .mk t a x cs tl => .mk t a x cs tl :: iterList cs

def iterList : List Element → List Element
  | [] => []
  | e :: es => e.iter ++ iterList es

end

/-- The TEI namespace prefix used by every tag comparison in the source. -/
def ns (local_name : String) : String :=
  "\x7bhttp://www.tei-c.org/ns/1.0\x7d" ++ local_name

def is_heading (element : Element) : Bool :=
  element.tag == ns "head"

def is_paragraph (element : Element) : Bool :=
  element.tag == ns "p"

def is_formula (element : Element) : Bool :=
  element.tag == ns "formula"

def is_bib_reference (element : Element) : Bool :=
  element.tag == ns "ref" && element.get "type" == some "bibr"

/-- ASCII whitespace characters removed by Python `str.strip()`. -/
def pyIsSpace (c : Char) : Bool :=
  c == ' ' || c == '\t' || c == '\n' || c == '\x0d' || c == '\x0b' || c == '\x0c'

def stripList (l : List Char) : List Char :=
  ((l.dropWhile pyIsSpace).reverse.dropWhile pyIsSpace).reverse

/-- Model of Python `str.strip()`: remove leading and trailing whitespace. -/
def pyStrip (s : String) : String :=
  String.mk (stripList s.data)

/-- The ways `process_paper_section` can abort: a failed `assert`, or the
`raise ValueError(...)` for an unexpected section tag. -/
inductive LinError where
  | assertionError
  | valueError (msg : String)
deriving DecidableEq, Repr

/-- The per-node head-text handling of the `div` loop body
(lines 91-113): the five-way classification of a visited node and the
lines it appends for its own text. -/
def headLines (element : Element) : Except LinError (List String) :=
  if is_heading element then
    match element.text with
    | none => .error .assertionError
    | some t => .ok ["[[HEADING: " ++ pyStrip t ++ "]]"]
  else if is_paragraph element then
    match element.text with
    | some _ => .error .assertionError
    | none =>
      match element.tail with
      | some _ => .error .assertionError
      | none => .ok [""]
  else if is_formula element then
    match element.text with
    | none => .error .assertionError
    | some t => .ok ["[[FORMULA: " ++ pyStrip t ++ "]]"]
  else if is_bib_reference element then
    .ok []
  else
    match element.text with
    | none => .ok []
    | some t => if pyStrip t = "" then .ok [] else .ok [pyStrip t]

/-- The tail-text handling run for every visited node (lines 114-118):
emit the stripped tail as one line if it is non-empty. -/
def tailLines (element : Element) : List String :=
  match element.tail with
  | none => []
  | some t => if pyStrip t = "" then [] else [pyStrip t]

/-- One iteration of the `div` traversal loop: head-text handling
followed by unconditional tail-text handling. -/
def processNode (element : Element) : Except LinError (List String) :=
  match headLines element with
  | .error err => .error err
  | .ok h => .ok (h ++ tailLines element)

/-- The `div` traversal: fold the loop body over `section.iter()`,
accumulating emitted lines in order, propagating the first failure. -/
def processNodes : List Element → Except LinError (List String)
  | [] => .ok []
  | e :: es =>
    match processNode e with
    | .error err => .error err
    | .ok h =>
      match processNodes es with
      | .error err => .error err
      | .ok rest => .ok (h ++ rest)

/-- Model of `process_paper_section` (lines 76-121): dispatch on the
section tag, traverse a `div`, and raise on any other tag. -/
def process_paper_section (s : Element) : Except LinError (List String) :=
  if s.tag = ns "note" then .ok []
  else if s.tag = ns "figure" then .ok []
  else if s.tag = ns "div" then processNodes s.iter
  else .error (.valueError ("Unexpected section tag: " ++ s.tag))

/-- One step of the assembly loop in `main` (lines 156-159): if the
accumulated output is non-empty, append one empty separator line, then
extend with the section output. -/
def assembleStep (acc sec : List String) : List String :=
  (if acc = [] then acc else acc ++ [""]) ++ sec

/-- Model of the rough-text assembly in `main` (lines 152-159): linearize
every top-level section of the body in order (aborting on the first
failure, as the exception would), then fold the sections together with
the separator rule. -/
def assembleBody (sections : List Element) : Except LinError (List String) :=
  match sections.mapM process_paper_section with
  | .error err => .error err
  | .ok rough => .ok (rough.foldl assembleStep [])

/-- Linearization as a run over the document tree: the source never
mutates any element, so a run returns its output together with the
untouched input tree. -/
def linearizeRun (s : Element) : Except LinError (List String) × Element :=
  (process_paper_section s, s)

/-! Auxiliary lemmas about `pyStrip`. -/

/-- A character list with no leading whitespace. -/
def NoLead (l : List Char) : Prop :=
  ∀ c, l.head? = some c → pyIsSpace c = false

/-- A character list with no trailing whitespace. -/
def NoTrail (l : List Char) : Prop :=
  ∀ c, l.getLast? = some c → pyIsSpace c = false

theorem noLead_dropWhile (l : List Char) : NoLead (l.dropWhile pyIsSpace) := by
  induction l with
  | nil => intro c hc; simp at hc
  | cons a as ih =>
    intro c hc
    rw [List.dropWhile_cons] at hc
    split at hc
    · exact ih c hc
    · next ha =>
      simp at hc
      rw [← hc]
      exact Bool.not_eq_true _ |>.mp ha

theorem dropWhile_of_noLead (l : List Char) (h : NoLead l) :
    l.dropWhile pyIsSpace = l := by
  cases l with
  | nil => rfl
  | cons a as =>
    have ha := h a rfl
    rw [List.dropWhile_cons, ha]
    simp

theorem noTrail_dropWhile (l : List Char) (h : NoTrail l) :
    NoTrail (l.dropWhile pyIsSpace) := by
  induction l with
  | nil => exact h
  | cons a as ih =>
    rw [List.dropWhile_cons]
    split
    · apply ih
      intro c hc
      apply h
      cases as with
      | nil => simp at hc
      | cons b bs => simpa using hc
    · exact h

theorem stripList_noLead (l : List Char) : NoLead (stripList l) := by
  intro c hc
  unfold stripList at hc
  rw [List.head?_reverse] at hc
  refine noTrail_dropWhile _ (fun d hd => ?_) c hc
  rw [List.getLast?_reverse] at hd
  exact noLead_dropWhile l d hd

theorem stripList_noTrail (l : List Char) : NoTrail (stripList l) := by
  intro c hc
  unfold stripList at hc
  rw [List.getLast?_reverse] at hc
  exact noLead_dropWhile _ c hc

theorem stripList_eq_self (l : List Char) (h1 : NoLead l) (h2 : NoTrail l) :
    stripList l = l := by
  unfold stripList
  rw [dropWhile_of_noLead l h1]
  rw [dropWhile_of_noLead l.reverse (fun c hc => h2 c (by rwa [List.head?_reverse] at hc))]
  exact List.reverse_reverse l

theorem stripList_idem (l : List Char) : stripList (stripList l) = stripList l :=
  stripList_eq_self _ (stripList_noLead l) (stripList_noTrail l)

theorem strData_append (s t : String) : (s ++ t).data = s.data ++ t.data := by
  cases s; cases t; rfl

theorem pyStrip_idem (s : String) : pyStrip (pyStrip s) = pyStrip s := by
  unfold pyStrip
  rw [stripList_idem]

theorem pyStrip_fixed_of (s : String) (h1 : NoLead s.data) (h2 : NoTrail s.data) :
    pyStrip s = s := by
  unfold pyStrip
  rw [stripList_eq_self _ h1 h2]

theorem noLead_of_head (l : List Char) (c0 : Char) (h : l.head? = some c0)
    (hc : pyIsSpace c0 = false) : NoLead l := by
  intro c hcc
  rw [h] at hcc
  injection hcc with h2
  rw [← h2]
  exact hc

/-- A string of the shape `pre ++ x ++ "]]"` whose first character is
non-whitespace is a fixed point of `pyStrip`. -/
theorem pyStrip_bracketed (pre x : String) (c0 : Char)
    (h : pre.data.head? = some c0) (hc : pyIsSpace c0 = false) :
    pyStrip (pre ++ x ++ "]]") = pre ++ x ++ "]]" := by
  apply pyStrip_fixed_of
  · apply noLead_of_head _ c0 _ hc
    rw [strData_append, strData_append, List.head?_append, List.head?_append, h]
    rfl
  · intro c hcc
    rw [strData_append, List.getLast?_append] at hcc
    have : ("]]".data).getLast? = some ']' := rfl
    rw [this] at hcc
    injection hcc with h2
    rw [← h2]
    rfl

theorem bracketed_ne_empty (pre x : String) (c0 : Char)
    (h : pre.data.head? = some c0) : (pre ++ x ++ "]]") ≠ "" := by
  intro hcc
  have hd : (pre ++ x ++ "]]").data = [] := by rw [hcc]
  rw [strData_append, strData_append] at hd
  cases hp : pre.data with
  | nil => rw [hp] at h; simp at h
  | cons a as => rw [hp] at hd; simp at hd

/-! Branch characterizations of the per-node handling. -/

theorem tag_of_heading (e : Element) (h : is_heading e = true) : e.tag = ns "head" := by
  simpa [is_heading] using h

theorem tag_of_paragraph (e : Element) (h : is_paragraph e = true) : e.tag = ns "p" := by
  simpa [is_paragraph] using h

theorem tag_of_formula (e : Element) (h : is_formula e = true) : e.tag = ns "formula" := by
  simpa [is_formula] using h

theorem tag_of_bib (e : Element) (h : is_bib_reference e = true) :
    e.tag = ns "ref" ∧ e.get "type" = some "bibr" := by
  simpa [is_bib_reference] using h

theorem headLines_heading (e : Element) (h : is_heading e = true) :
    headLines e =
      match e.text with
      | none => .error .assertionError
      | some t => .ok ["[[HEADING: " ++ pyStrip t ++ "]]"] := by
  unfold headLines
  simp [h]

theorem headLines_paragraph (e : Element) (h : is_paragraph e = true) :
    headLines e =
      match e.text with
      | some _ => .error .assertionError
      | none =>
        match e.tail with
        | some _ => .error .assertionError
        | none => .ok [""] := by
  have ht := tag_of_paragraph e h
  have h1 : is_heading e = false := by unfold is_heading; rw [ht]; rfl
  unfold headLines
  simp [h1, h]

theorem headLines_formula (e : Element) (h : is_formula e = true) :
    headLines e =
      match e.text with
      | none => .error .assertionError
      | some t => .ok ["[[FORMULA: " ++ pyStrip t ++ "]]"] := by
  have ht := tag_of_formula e h
  have h1 : is_heading e = false := by unfold is_heading; rw [ht]; rfl
  have h2 : is_paragraph e = false := by unfold is_paragraph; rw [ht]; rfl
  unfold headLines
  simp [h1, h2, h]

theorem headLines_bib (e : Element) (h : is_bib_reference e = true) :
    headLines e = .ok [] := by
  obtain ⟨ht, _⟩ := tag_of_bib e h
  have h1 : is_heading e = false := by unfold is_heading; rw [ht]; rfl
  have h2 : is_paragraph e = false := by unfold is_paragraph; rw [ht]; rfl
  have h3 : is_formula e = false := by unfold is_formula; rw [ht]; rfl
  unfold headLines
  simp [h1, h2, h3, h]

theorem headLines_other (e : Element) (h1 : is_heading e = false)
    (h2 : is_paragraph e = false) (h3 : is_formula e = false)
    (h4 : is_bib_reference e = false) :
    headLines e =
      match e.text with
      | none => .ok []
      | some t => if pyStrip t = "" then .ok [] else .ok [pyStrip t] := by
  unfold headLines
  simp [h1, h2, h3, h4]

/-! Invariant: every line a successful run emits is empty or stripped. -/

theorem bool_eq_false {b : Bool} (h : ¬ b = true) : b = false := by
  cases b
  · rfl
  · exact absurd rfl h

theorem tailLines_lines (e : Element) : ∀ l ∈ tailLines e, pyStrip l = l ∧ l ≠ "" := by
  intro l hl
  unfold tailLines at hl
  split at hl
  · simp at hl
  · next t ht =>
    split at hl
    · simp at hl
    · next hne =>
      simp at hl
      rw [hl]
      exact ⟨pyStrip_idem t, hne⟩

theorem headLines_lines (e : Element) (r : List String) (h : headLines e = .ok r) :
    ∀ l ∈ r, l = "" ∨ (pyStrip l = l ∧ l ≠ "") := by
  by_cases h1 : is_heading e = true
  · rw [headLines_heading e h1] at h
    split at h
    · exact Except.noConfusion h
    · injection h with h2
      rw [← h2]
      intro l hl
      simp at hl
      rw [hl]
      exact Or.inr ⟨pyStrip_bracketed _ _ '[' rfl rfl, bracketed_ne_empty _ _ '[' rfl⟩
  · by_cases h2 : is_paragraph e = true
    · rw [headLines_paragraph e h2] at h
      split at h
      · exact Except.noConfusion h
      · split at h
        · exact Except.noConfusion h
        · injection h with h3
          rw [← h3]
          intro l hl
          simp at hl
          rw [hl]
          exact Or.inl rfl
    · by_cases h3 : is_formula e = true
      · rw [headLines_formula e h3] at h
        split at h
        · exact Except.noConfusion h
        · injection h with h4
          rw [← h4]
          intro l hl
          simp at hl
          rw [hl]
          exact Or.inr ⟨pyStrip_bracketed _ _ '[' rfl rfl, bracketed_ne_empty _ _ '[' rfl⟩
      · by_cases h4 : is_bib_reference e = true
        · rw [headLines_bib e h4] at h
          injection h with h5
          rw [← h5]
          intro l hl
          simp at hl
        · rw [headLines_other e (bool_eq_false h1) (bool_eq_false h2)
            (bool_eq_false h3) (bool_eq_false h4)] at h
          split at h
          · injection h with h5
            rw [← h5]
            intro l hl
            simp at hl
          · next t ht =>
            split at h
            · injection h with h5
              rw [← h5]
              intro l hl
              simp at hl
            · next hne =>
              injection h with h5
              rw [← h5]
              intro l hl
              simp at hl
              rw [hl]
              exact Or.inr ⟨pyStrip_idem t, hne⟩

theorem processNode_lines (e : Element) (r : List String)
    (h : processNode e = .ok r) :
    ∀ l ∈ r, l = "" ∨ (pyStrip l = l ∧ l ≠ "") := by
  unfold processNode at h
  split at h
  · exact Except.noConfusion h
  · next h0 hh =>
    injection h with h2
    rw [← h2]
    intro l hl
    rw [List.mem_append] at hl
    cases hl with
    | inl hl => exact headLines_lines e h0 hh l hl
    | inr hl => exact Or.inr (tailLines_lines e l hl)

theorem processNodes_lines (es : List Element) (r : List String)
    (h : processNodes es = .ok r) :
    ∀ l ∈ r, l = "" ∨ (pyStrip l = l ∧ l ≠ "") := by
  induction es generalizing r with
  | nil =>
    unfold processNodes at h
    injection h with h2
    rw [← h2]
    intro l hl
    simp at hl
  | cons e es ih =>
    unfold processNodes at h
    split at h
    · exact Except.noConfusion h
    · next h0 hh =>
      split at h
      · exact Except.noConfusion h
      · next rest hrest =>
        injection h with h2
        rw [← h2]
        intro l hl
        rw [List.mem_append] at hl
        cases hl with
        | inl hl => exact processNode_lines e h0 hh l hl
        | inr hl => exact ih rest hrest l hl

/-! Concrete document fixtures used by the claims. -/

/-- The body section of the end-to-end spec example:
`<div><head>Intro</head><p>Hello <formula>x=1</formula> world.</p></div>`.
The paragraph carries own head text `"Hello "`. -/
def c1div : Element :=
  .mk (ns "div") [] none
    [ .mk (ns "head") [] (some "Intro") [] none,
      .mk (ns "p") [] (some "Hello ")
        [ .mk (ns "formula") [] (some "x=1") [] (some " world.") ] none ]
    none

/-- The same document with the paragraph text wrapped in a sentence
element, the shape the paragraph-boundary assertions accept:
`<div><head>Intro</head><p><s>Hello <formula>x=1</formula> world.</s></p></div>`. -/
def c1divFixed : Element :=
  .mk (ns "div") [] none
    [ .mk (ns "head") [] (some "Intro") [] none,
      .mk (ns "p") [] none
        [ .mk (ns "s") [] (some "Hello ")
            [ .mk (ns "formula") [] (some "x=1") [] (some " world.") ] none ] none ]
    none

/-- A `div` section whose output is `["[[HEADING: A]]"]`. -/
def divA : Element :=
  .mk (ns "div") [] none [ .mk (ns "head") [] (some "A") [] none ] none

/-- A top-level `note` section, which linearizes to no lines. -/
def noteB : Element :=
  .mk (ns "note") [] (some "Copyright") [] none

/-- A `div` section whose output is `["[[HEADING: B]]"]`. -/
def divC : Element :=
  .mk (ns "div") [] none [ .mk (ns "head") [] (some "B") [] none ] none

/-- A `div` containing a heading whose head text is whitespace-only. -/
def c3div : Element :=
  .mk (ns "div") [] none [ .mk (ns "head") [] (some " ") [] none ] none

/-- A `div` containing the spec's formula example `<formula>E = m c 2</formula>`. -/
def c3formulaDiv : Element :=
  .mk (ns "div") [] none [ .mk (ns "formula") [] (some "E = m c 2") [] none ] none

/-- A bibliographic reference `<ref type="bibr">[4]</ref>` with tail `", "`. -/
def bibEl : Element :=
  .mk (ns "ref") [("type", "bibr")] (some "[4]") [] (some ", ")

/-- A top-level `note` section with a child that would fail the
paragraph assertions if it were visited. -/
def noteS : Element :=
  .mk (ns "note") [] (some "x") [ .mk (ns "p") [] (some "bad") [] none ] none

/-- A top-level `figure` section. -/
def figS : Element :=
  .mk (ns "figure") [] (some "caption") [] none

/-- A section with an unexpected tag. -/
def badS : Element :=
  .mk (ns "body") [] none [] none

/-- A `note` element with text, a child carrying text, and no tail, as it
appears nested inside a `div`. -/
def noteN : Element :=
  .mk (ns "note") [] (some "N") [ .mk (ns "s") [] (some "D") [] none ] none

/-- A `div` with the note element nested inside it. -/
def divNested : Element :=
  .mk (ns "div") [] none [noteN] none

/-! The claims. -/

/-- C1 counterexample: the spec's end-to-end example body does not
linearize to the five claimed lines — the paragraph node carries own head
text `"Hello "`, which the paragraph assertion rejects. -/
theorem c1_counterexample :
    assembleBody [c1div] ≠
      Except.ok ["[[HEADING: Intro]]", "", "Hello ", "[[FORMULA: x=1]]", " world."] := by
  intro hc
  have h : assembleBody [c1div] = Except.error LinError.assertionError := rfl
  rw [h] at hc
  exact Except.noConfusion hc

/-- C1 (amended): the example body aborts with an assertion failure
because the paragraph has own head text; the variant with the paragraph
content wrapped in a sentence element linearizes to the analogous lines
(with each fragment stripped). -/
theorem c1_theorem :
    assembleBody [c1div] = Except.error LinError.assertionError ∧
    assembleBody [c1divFixed] =
      Except.ok ["[[HEADING: Intro]]", "", "Hello", "[[FORMULA: x=1]]", "world."] :=
  ⟨rfl, rfl⟩

/-- C2 counterexample: a `note` section between two non-empty `div`
sections does contribute an extra separator — the assembler appends a
blank line before every section once output is non-empty, even when the
section produced no lines, so the result has two consecutive blanks. -/
theorem c2_counterexample :
    assembleBody [divA, noteB, divC] =
      Except.ok ["[[HEADING: A]]", "", "", "[[HEADING: B]]"] ∧
    assembleBody [divA, noteB, divC] ≠
      Except.ok ["[[HEADING: A]]", "", "[[HEADING: B]]"] := by
  refine ⟨rfl, ?_⟩
  intro hc
  have h : assembleBody [divA, noteB, divC] =
      Except.ok ["[[HEADING: A]]", "", "", "[[HEADING: B]]"] := rfl
  rw [h] at hc
  injection hc with h2
  exact absurd h2 (by decide)

/-- C2 (amended): the assembler inserts the empty-string separator before
a section exactly when the accumulated output so far is non-empty,
regardless of whether that section produced lines: two non-empty sections
in a body are separated by one blank line, and an empty section between
them contributes one extra blank line. -/
theorem c2_theorem (la lb : List String) (ha : la ≠ []) (s1 s2 : List Element)
    (h1 : s1.mapM process_paper_section = Except.ok [la, lb])
    (h2 : s2.mapM process_paper_section = Except.ok [la, [], lb]) :
    assembleBody s1 = Except.ok (la ++ [""] ++ lb) ∧
    assembleBody s2 = Except.ok (la ++ [""] ++ [""] ++ lb) := by
  constructor
  · unfold assembleBody
    rw [h1]
    simp [assembleStep, ha]
  · unfold assembleBody
    rw [h2]
    simp [assembleStep, ha]

/-- C2 witness: two non-empty `div` sections get one separator; with the
`note` between them the run gets a second, extra separator. -/
theorem c2_witness :
    assembleBody [divA, divC] =
      Except.ok ["[[HEADING: A]]", "", "[[HEADING: B]]"] ∧
    assembleBody [divA, noteB, divC] =
      Except.ok ["[[HEADING: A]]", "", "", "[[HEADING: B]]"] := by
  have h := c2_theorem ["[[HEADING: A]]"] ["[[HEADING: B]]"] (by decide)
    [divA, divC] [divA, noteB, divC] rfl rfl
  simpa using h

/-- C3 counterexample: a heading whose head text is whitespace-only has
no non-empty stripped head text, yet linearization does not fail — it
emits the degenerate line `[[HEADING: ]]`.  The assertion only requires
the text slot to be present, not non-empty after stripping. -/
theorem c3_counterexample :
    pyStrip " " = "" ∧ process_paper_section c3div = Except.ok ["[[HEADING: ]]"] :=
  ⟨rfl, rfl⟩

/-- C3 (amended): for every heading or formula node, the linearizer
requires the head-text slot to be present (an absent slot is a fatal
shape violation) and emits exactly one `[[HEADING: <stripped>]]` or
`[[FORMULA: <stripped>]]` line for it, where the stripped text may be
empty; `<formula>E = m c 2</formula>` emits exactly the line
`[[FORMULA: E = m c 2]]`. -/
theorem c3_theorem (e : Element) (h : is_heading e = true ∨ is_formula e = true) :
    (e.text = none → processNode e = Except.error LinError.assertionError) ∧
    (∀ t, e.text = some t → is_heading e = true →
      processNode e = Except.ok (("[[HEADING: " ++ pyStrip t ++ "]]") :: tailLines e)) ∧
    (∀ t, e.text = some t → is_formula e = true →
      processNode e = Except.ok (("[[FORMULA: " ++ pyStrip t ++ "]]") :: tailLines e)) ∧
    process_paper_section c3formulaDiv = Except.ok ["[[FORMULA: E = m c 2]]"] := by
  refine ⟨?_, ?_, ?_, rfl⟩
  · intro hx
    unfold processNode
    cases h with
    | inl hh => rw [headLines_heading e hh, hx]
    | inr hf => rw [headLines_formula e hf, hx]
  · intro t hx hh
    unfold processNode
    rw [headLines_heading e hh, hx]
    rfl
  · intro t hx hf
    unfold processNode
    rw [headLines_formula e hf, hx]
    rfl

/-- C3 witness: a heading with an absent text slot aborts, and the
formula example emits its single line. -/
theorem c3_witness :
    processNode (Element.mk (ns "head") [] none [] none) =
      Except.error LinError.assertionError ∧
    process_paper_section c3formulaDiv = Except.ok ["[[FORMULA: E = m c 2]]"] :=
  ⟨(c3_theorem (Element.mk (ns "head") [] none [] none) (Or.inl rfl)).1 rfl,
   (c3_theorem (Element.mk (ns "head") [] none [] none) (Or.inl rfl)).2.2.2⟩

/-- C4: a paragraph-boundary node with non-empty own head text or tail
text makes the run fail with a fatal shape violation; with neither slot
populated, exactly one empty-string line is emitted for it, and its
children are still the next nodes visited in order. -/
theorem c4_theorem (e : Element) (hp : is_paragraph e = true) :
    (∀ t, e.text = some t → t ≠ "" → processNode e = Except.error LinError.assertionError) ∧
    (∀ t, e.tail = some t → t ≠ "" → processNode e = Except.error LinError.assertionError) ∧
    (e.text = none → e.tail = none → processNode e = Except.ok [""]) ∧
    e.iter = e :: iterList e.children := by
  refine ⟨?_, ?_, ?_, ?_⟩
  · intro t hx _
    unfold processNode
    rw [headLines_paragraph e hp, hx]
  · intro t hx _
    unfold processNode
    rw [headLines_paragraph e hp]
    cases hx2 : e.text with
    | some u => rfl
    | none => rw [hx]
  · intro hx ht
    unfold processNode tailLines
    rw [headLines_paragraph e hp, hx, ht]
    rfl
  · cases e
    rfl

/-- C4 witness: a paragraph with text fails, one with a tail fails, and a
bare paragraph emits exactly one empty line. -/
theorem c4_witness :
    processNode (Element.mk (ns "p") [] (some "Hello ") [] none) =
      Except.error LinError.assertionError ∧
    processNode (Element.mk (ns "p") [] none [] (some "x")) =
      Except.error LinError.assertionError ∧
    processNode (Element.mk (ns "p") [] none [] none) = Except.ok [""] :=
  ⟨(c4_theorem (Element.mk (ns "p") [] (some "Hello ") [] none) rfl).1
      "Hello " rfl (by decide),
   (c4_theorem (Element.mk (ns "p") [] none [] (some "x")) rfl).2.1
      "x" rfl (by decide),
   (c4_theorem (Element.mk (ns "p") [] none [] none) rfl).2.2.1 rfl rfl⟩

/-- C5: a bibliographic-reference node contributes no line for its own
head text — its visit emits exactly its tail lines — and for every
successfully visited node of any role, the emitted lines are the head
handling followed by the tail handling. -/
theorem c5_theorem (e : Element) (hb : is_bib_reference e = true) :
    processNode e = Except.ok (tailLines e) ∧
    (∀ f r, processNode f = Except.ok r →
      ∃ h0, headLines f = Except.ok h0 ∧ r = h0 ++ tailLines f) := by
  constructor
  · unfold processNode
    rw [headLines_bib e hb]
    rfl
  · intro f r h
    unfold processNode at h
    split at h
    · exact Except.noConfusion h
    · next h0 hh =>
      injection h with h2
      exact ⟨h0, hh, h2.symm⟩

/-- C5 witness: `<ref type="bibr">[4]</ref>` with tail `", "` emits no
line for `[4]` but one line for the stripped tail. -/
theorem c5_witness : processNode bibEl = Except.ok [","] :=
  (c5_theorem bibEl rfl).1

/-- C6: linearization dispatches on the section's own tag — `note` and
`figure` return the empty sequence immediately whatever their subtree
holds, `div` is traversed, and any other tag raises the unexpected
section tag error. -/
theorem c6_theorem (s : Element) :
    (s.tag = ns "note" → process_paper_section s = Except.ok []) ∧
    (s.tag = ns "figure" → process_paper_section s = Except.ok []) ∧
    (s.tag = ns "div" → process_paper_section s = processNodes s.iter) ∧
    (s.tag ≠ ns "note" → s.tag ≠ ns "figure" → s.tag ≠ ns "div" →
      process_paper_section s =
        Except.error (.valueError ("Unexpected section tag: " ++ s.tag))) := by
  refine ⟨?_, ?_, ?_, ?_⟩
  · intro h
    unfold process_paper_section
    rw [if_pos h]
  · intro h
    have h1 : ¬ s.tag = ns "note" := by rw [h]; decide
    unfold process_paper_section
    rw [if_neg h1, if_pos h]
  · intro h
    have h1 : ¬ s.tag = ns "note" := by rw [h]; decide
    have h2 : ¬ s.tag = ns "figure" := by rw [h]; decide
    unfold process_paper_section
    rw [if_neg h1, if_neg h2, if_pos h]
  · intro h1 h2 h3
    unfold process_paper_section
    rw [if_neg h1, if_neg h2, if_neg h3]

/-- C6 witness: a note with an invalid child still yields no lines (its
subtree is never visited), a figure yields no lines, a div is the
traversal of its descendant set, and a stray tag aborts. -/
theorem c6_witness :
    process_paper_section noteS = Except.ok [] ∧
    process_paper_section figS = Except.ok [] ∧
    process_paper_section c3formulaDiv = processNodes c3formulaDiv.iter ∧
    process_paper_section badS =
      Except.error (.valueError
        "Unexpected section tag: \x7bhttp://www.tei-c.org/ns/1.0\x7dbody") :=
  ⟨(c6_theorem noteS).1 rfl,
   (c6_theorem figS).2.1 rfl,
   (c6_theorem c3formulaDiv).2.2.1 rfl,
   (c6_theorem badS).2.2.2 (by decide) (by decide) (by decide)⟩

/-- C7: in every successfully linearized section, each emitted line is
either the intentionally empty paragraph-boundary marker or a non-empty
fragment that is a fixed point of stripping (no leading or trailing
whitespace); fragments that strip to empty are never emitted. -/
theorem c7_theorem (s : Element) (ls : List String)
    (h : process_paper_section s = Except.ok ls) :
    ∀ l ∈ ls, l = "" ∨ (pyStrip l = l ∧ l ≠ "") := by
  unfold process_paper_section at h
  split at h
  · injection h with h2
    rw [← h2]
    intro l hl
    simp at hl
  · split at h
    · injection h with h2
      rw [← h2]
      intro l hl
      simp at hl
    · split at h
      · exact processNodes_lines _ _ h
      · exact Except.noConfusion h

/-- C7 witness: the heading placeholder line of a linearized concrete
section is non-empty and strips to itself. -/
theorem c7_witness :
    "[[HEADING: Intro]]" = "" ∨
      (pyStrip "[[HEADING: Intro]]" = "[[HEADING: Intro]]" ∧
        "[[HEADING: Intro]]" ≠ "") :=
  c7_theorem c1divFixed
    ["[[HEADING: Intro]]", "", "Hello", "[[FORMULA: x=1]]", "world."] rfl
    "[[HEADING: Intro]]" (List.mem_cons_self _ _)

/-- C8: linearization is deterministic and non-mutating — a run leaves
the document tree unchanged, and a second run on the tree left behind by
the first produces the identical output. -/
theorem c8_theorem (s : Element) :
    (linearizeRun ((linearizeRun s).2)).1 = (linearizeRun s).1 ∧
    (linearizeRun s).2 = s :=
  ⟨rfl, rfl⟩

/-- C9: a note or figure element nested inside a div matches none of the
classifier roles, so during traversal it is handled as "other": its
stripped head text is emitted, its tail lines are emitted, and its
children are the next nodes visited rather than pruned. -/
theorem c9_theorem (e : Element) (h : e.tag = ns "note" ∨ e.tag = ns "figure") :
    is_heading e = false ∧ is_paragraph e = false ∧ is_formula e = false ∧
    is_bib_reference e = false ∧
    (∀ t, e.text = some t → pyStrip t ≠ "" →
      processNode e = Except.ok (pyStrip t :: tailLines e)) ∧
    e.iter = e :: iterList e.children := by
  have h1 : is_heading e = false := by
    unfold is_heading
    cases h with
    | inl h => rw [h]; rfl
    | inr h => rw [h]; rfl
  have h2 : is_paragraph e = false := by
    unfold is_paragraph
    cases h with
    | inl h => rw [h]; rfl
    | inr h => rw [h]; rfl
  have h3 : is_formula e = false := by
    unfold is_formula
    cases h with
    | inl h => rw [h]; rfl
    | inr h => rw [h]; rfl
  have h4 : is_bib_reference e = false := by
    unfold is_bib_reference
    cases h with
    | inl h => rw [h]; rfl
    | inr h => rw [h]; rfl
  refine ⟨h1, h2, h3, h4, ?_, ?_⟩
  · intro t hx hne
    unfold processNode
    rw [headLines_other e h1 h2 h3 h4, hx]
    simp [hne]
  · cases e
    rfl

/-- C9 witness: a nested note with text "N" and a child sentence "D"
contributes its own text, and the whole div traversal also emits the
descendant's text in order. -/
theorem c9_witness :
    processNode noteN = Except.ok ["N"] ∧
    process_paper_section divNested = Except.ok ["N", "D"] :=
  ⟨(c9_theorem noteN (Or.inl rfl)).2.2.2.2.1 "N" rfl (by decide), rfl⟩

/-- C10: a paragraph-boundary node is required to have its head-text and
tail-text slots literally absent: any present string in either slot,
including a whitespace-only one, is a fatal shape violation. -/
theorem c10_theorem (e : Element) (hp : is_paragraph e = true) :
    (∀ t, e.text = some t → processNode e = Except.error LinError.assertionError) ∧
    (∀ t, e.tail = some t → processNode e = Except.error LinError.assertionError) := by
  constructor
  · intro t hx
    unfold processNode
    rw [headLines_paragraph e hp, hx]
  · intro t hx
    unfold processNode
    rw [headLines_paragraph e hp]
    cases hx2 : e.text with
    | some u => rfl
    | none => rw [hx]

/-- C10 witness: a paragraph whose own text is the whitespace-only string
" " fails, as does one whose tail is " ". -/
theorem c10_witness :
    processNode (Element.mk (ns "p") [] (some " ") [] none) =
      Except.error LinError.assertionError ∧
    processNode (Element.mk (ns "p") [] none [] (some " ")) =
      Except.error LinError.assertionError :=
  ⟨(c10_theorem (Element.mk (ns "p") [] (some " ") [] none) rfl).1 " " rfl,
   (c10_theorem (Element.mk (ns "p") [] none [] (some " ")) rfl).2 " " rfl⟩
